import Mathlib

/-
  Verification of the rememberizer MCP server core
  (src/mcp_server_rememberizer/server.py) against its design spec.

  The embedding models decoded JSON values, the request log of the API
  Client, and the four handler bodies (list_resources, read_resource,
  list_tools, call_tool) as pure Lean functions.  The remote service is a
  pure oracle Request -> Json; each handler returns the list of requests
  it issued together with its outcome.  Python exceptions are modelled by
  the Err type.
-/

/-- Decoded JSON value (APIResponse in the spec).  Numbers are modelled as
integers, which covers every value the adapter itself constructs. -/
inductive Json where
  | null : Json
  | bool : Bool → Json
  | num : Int → Json
  | str : String → Json
  | arr : List Json → Json
  | obj : List (String × Json) → Json

/-- Lookup of a key in a Python dict, modelled as an association list with
unique keys (first binding wins). -/
def dictGet (d : List (String × Json)) (k : String) : Option Json :=
  (d.find? (fun p => p.1 = k)).map (fun p => p.2)

/-- Python dict.get(k, dflt): lookup with a default. -/
def dictGetD (d : List (String × Json)) (k : String) (dflt : Json) : Json :=
  (dictGet d k).getD dflt

/-- Subscript data[k] on a decoded JSON value: some value only when data is
an object holding the key (otherwise Python raises KeyError or TypeError). -/
def Json.get : Json → String → Option Json
  | Json.obj fields, k => dictGet fields k
  | _, _ => none

/-- Whether a decoded JSON value is an object (a Python dict). -/
def Json.isObj : Json → Bool
  | Json.obj _ => true
  | _ => false

mutual

/-- Python repr() of a decoded JSON value: None/True/False, numbers,
single-quoted strings, [..] lists and \x7b..\x7d dicts (modelled for
strings without embedded quote characters, which is every string the
claims evaluate). -/
def pyRepr : Json → String
  | Json.null => "None"
  | Json.bool true => "True"
  | Json.bool false => "False"
  | Json.num n => toString n
  | Json.str s => "\x27" ++ s ++ "\x27"
  | Json.arr xs => "[" ++ pyReprList xs ++ "]"
  | Json.obj fields => "\x7b" ++ pyReprFields fields ++ "\x7d"

/-- Comma-separated repr of the elements of a Python list. -/
def pyReprList : List Json → String
  | [] => ""
  | [x] => pyRepr x
  | x :: xs => pyRepr x ++ ", " ++ pyReprList xs

/-- Comma-separated repr of the entries of a Python dict. -/
def pyReprFields : List (String × Json) → String
  | [] => ""
  | [(k, v)] => "\x27" ++ k ++ "\x27: " ++ pyRepr v
  | (k, v) :: fields =>
      "\x27" ++ k ++ "\x27: " ++ pyRepr v ++ ", " ++ pyReprFields fields

end

/-- Python str() of a decoded JSON value: a top-level string prints bare,
everything else prints as its repr. -/
def pyStr : Json → String
  | Json.str s => s
  | j => pyRepr j

/-- A run of n space characters, used for json.dumps indentation. -/
def spaces (n : Nat) : String := String.mk (List.replicate n (Char.ofNat 32))

mutual

/-- json.dumps(data, indent=2): pretty-printed JSON text at a given
indentation level. -/
def jsonDumpsAt (level : Nat) : Json → String
  | Json.null => "null"
  | Json.bool true => "true"
  | Json.bool false => "false"
  | Json.num n => toString n
  | Json.str s => "\"" ++ s ++ "\""
  | Json.arr [] => "[]"
  | Json.arr (x :: xs) =>
      "[\n" ++ jsonDumpsItems (level + 2) (x :: xs)
        ++ "\n" ++ spaces level ++ "]"
  | Json.obj [] => "\x7b\x7d"
  | Json.obj (f :: fs) =>
      "\x7b\n" ++ jsonDumpsEntries (level + 2) (f :: fs)
        ++ "\n" ++ spaces level ++ "\x7d"

/-- Indented, comma-newline-separated dump of list elements. -/
def jsonDumpsItems (level : Nat) : List Json → String
  | [] => ""
  | [x] => spaces level ++ jsonDumpsAt level x
  | x :: xs =>
      spaces level ++ jsonDumpsAt level x
        ++ ",\n" ++ jsonDumpsItems level xs

/-- Indented, comma-newline-separated dump of object entries. -/
def jsonDumpsEntries (level : Nat) : List (String × Json) → String
  | [] => ""
  | [(k, v)] =>
      spaces level ++ "\"" ++ k ++ "\": "
        ++ jsonDumpsAt level v
  | (k, v) :: fs =>
      spaces level ++ "\"" ++ k ++ "\": "
        ++ jsonDumpsAt level v ++ ",\n" ++ jsonDumpsEntries level fs

end

/-- json.dumps(data, indent=2) at top level. -/
def jsonDumps (data : Json) : String := jsonDumpsAt 0 data

/-- Whether a decoded JSON value is Python None. -/
def Json.isNull : Json → Bool
  | Json.null => true
  | _ => false

/-- An HTTP request issued through the API Client: get(path, params) or
post(path, data).  Params carry Json values; Json.null models a
None-valued entry of the params dict. -/
inductive Request where
  | get : String → Option (List (String × Json)) → Request
  | post : String → List (String × Json) → Request

/-- Python exceptions the handler bodies can raise.  keyError models
KeyError on a missing dict key (the InvalidArgument of the spec);
valueError models ValueError (UnknownTool / InvalidResource in the spec);
attributeError models calling .get on a non-dict; validationError models
pydantic rejecting a malformed Resource field. -/
inductive Err where
  | keyError : String → Err
  | valueError : String → Err
  | attributeError : Err
  | validationError : Err
deriving DecidableEq, Repr

/-- The text payload call_tool returns: types.TextContent(type="text",
text=...). -/
structure TextContent where
  type : String
  text : String
deriving DecidableEq, Repr

/-- A ResourceDescriptor: types.Resource(uri=..., name=...,
mimeType="text/json"). -/
structure Resource where
  uri : String
  name : String
  mimeType : String
deriving DecidableEq, Repr

/-- A parsed resource uri as the handler sees it through pydantic AnyUrl:
a scheme, a host segment and a path segment.  read_resource consumes only
the host and path fields. -/
structure Uri where
  scheme : String
  host : String
  path : String
deriving DecidableEq, Repr

/-- The string form of a uri, as interpolated into the ValueError
message. -/
def uriText (uri : Uri) : String :=
  uri.scheme ++ "://" ++ uri.host ++ uri.path

/-- Modelled from the spec: the utils module holding the path literals is
not under src; the spec fixes a relative account-information path. -/
def ACCOUNT_INFORMATION_PATH : String := "account/"

/-- Modelled from the spec: fixed relative search path (utils module not
under src). -/
def SEARCH_PATH : String := "documents/search/"

/-- Modelled from the spec: fixed relative agentic-search path (utils
module not under src). -/
def AGENTIC_SEARCH_PATH : String := "documents/agentic_search/"

/-- Modelled from the spec: fixed relative integrations path (utils module
not under src). -/
def LIST_INTEGRATIONS_PATH : String := "integrations/"

/-- Modelled from the spec: fixed relative documents-list path (utils
module not under src). -/
def LIST_DOCUMENTS_PATH : String := "documents/"

/-- Modelled from the spec: document-by-id path template with an id
placeholder, filled by .format(id=...) (utils module not under src). -/
def RETRIEVE_DOCUMENT_PATH : String := "documents/\x7bid\x7d/contents/"

/-- Modelled from the spec: slack-message-by-id path template with an id
placeholder (utils module not under src). -/
def RETRIEVE_SLACK_PATH : String := "discussions/\x7bid\x7d/contents/"

/-- Modelled from the spec: fixed relative memorize path (utils module not
under src). -/
def MEMORIZE_PATH : String := "documents/memorize/"

/-- Character-list substitution of every id placeholder (the four
characters brace, i, d, brace) by the id text. -/
def formatIdAux (idc : List Char) : List Char → List Char
  | c1 :: c2 :: c3 :: c4 :: rest =>
      if c1 = Char.ofNat 123 ∧ c2 = Char.ofNat 105
          ∧ c3 = Char.ofNat 100 ∧ c4 = Char.ofNat 125 then
        idc ++ formatIdAux idc rest
      else c1 :: formatIdAux idc (c2 :: c3 :: c4 :: rest)
  | cs => cs

/-- template.format(id=document_id): substitutes the id placeholder of a
path template. -/
def formatId (template id : String) : String :=
  String.mk (formatIdAux id.data template.data)

/-- Leading separator characters dropped from a character list. -/
def lstripSlashAux : List Char → List Char
  | [] => []
  | c :: cs => if c = Char.ofNat 47 then lstripSlashAux cs else c :: cs

/-- uri.path.lstrip("/"): the uri path segment with leading separators
stripped. -/
def lstripSlash (s : String) : String :=
  String.mk (lstripSlashAux s.data)

/-- The read_resource handler body.  The remote service is a pure oracle;
the result pairs the requests issued with the outcome. -/
def read_resource (uri : Uri) (remote : Request → Json) :
    List Request × Except Err String :=
  let path : Option String :=
    if uri.host = "document" then some RETRIEVE_DOCUMENT_PATH
    else if uri.host = "slack" then some RETRIEVE_SLACK_PATH
    else none
  match path with
  | none => ([], Except.error (Err.valueError ("Unknown resource: " ++ uriText uri)))
  | some p =>
      let document_id := lstripSlash uri.path
      let req := Request.get (formatId p document_id) none
      ([req], Except.ok (jsonDumps (remote req)))

/-- Modelled from the spec: get_document_uri lives in the utils module,
which is not under src.  Per the spec resource-catalog and uri-format
sections it maps a document object to a uri encoding kind "document" and
the document id.  A document without an id yields none (an exception in
the missing code). -/
def get_document_uri (document : Json) : Option String :=
  match document.get "id" with
  | some (Json.str s) => some ("document://" ++ s)
  | some (Json.num n) => some ("document://" ++ toString n)
  | _ => none

/-- One list_resources element: types.Resource(uri=get_document_uri(d),
name=d["name"], mimeType="text/json"); none models the exception raised on
a malformed document object. -/
def parseResource (document : Json) : Option Resource :=
  match get_document_uri document, document.get "name" with
  | some uri, some (Json.str n) => some (Resource.mk uri n "text/json")
  | _, _ => none

/-- Elementwise resource construction over the results array: some list
only when every element parses (the comprehension in list_resources). -/
def parseResources : List Json → Option (List Resource)
  | [] => some []
  | d :: ds =>
      match parseResource d, parseResources ds with
      | some r, some rs => some (r :: rs)
      | _, _ => none

/-- The list_resources handler body: one GET of the documents-list path,
then one Resource per element of data["results"], in order. -/
def list_resources (remote : Request → Json) :
    List Request × Except Err (List Resource) :=
  let req := Request.get LIST_DOCUMENTS_PATH none
  let data := remote req
  match data.get "results" with
  | some (Json.arr docs) =>
      match parseResources docs with
      | some resources => ([req], Except.ok resources)
      | none => ([req], Except.error Err.validationError)
  | _ => ([req], Except.error (Err.keyError "results"))

/-- Modelled from the spec: the API Client (utils module, not under src)
serializes the params mapping into the query string with None-valued
entries omitted, never as the literal text None or null. -/
def queryParams (params : List (String × Json)) : List (String × Json) :=
  params.filter (fun p => !(Json.isNull p.2))

/-- Modelled from the spec: the RememberizerTools name enum lives in the
utils module, which is not under src.  The spec requires every catalog
name to be accepted by the call_tool dispatch, and the tool descriptions
in server.py cross-reference these names, so each value is the literal
dispatch name of the matching call_tool arm. -/
def RememberizerTools.ACCOUNT_INFORMATION : String :=
  "rememberizer_account_information"

/-- Modelled from the spec: see RememberizerTools.ACCOUNT_INFORMATION. -/
def RememberizerTools.SEARCH : String :=
  "retrieve_semantically_similar_internal_knowledge"

/-- Modelled from the spec: see RememberizerTools.ACCOUNT_INFORMATION. -/
def RememberizerTools.AGENTIC_SEARCH : String :=
  "smart_search_internal_knowledge"

/-- Modelled from the spec: see RememberizerTools.ACCOUNT_INFORMATION. -/
def RememberizerTools.LIST_INTEGRATIONS : String :=
  "list_internal_knowledge_systems"

/-- Modelled from the spec: see RememberizerTools.ACCOUNT_INFORMATION. -/
def RememberizerTools.LIST_DOCUMENTS : String :=
  "list_personal_team_knowledge_documents"

/-- Modelled from the spec: see RememberizerTools.ACCOUNT_INFORMATION. -/
def RememberizerTools.MEMORIZE : String :=
  "remember_this"

/-- One property entry of a tool input schema: declared type, description,
and the numeric constraints and default present on some properties. -/
structure PropSchema where
  type : String
  description : String
  minimum : Option Nat
  maximum : Option Nat
  default : Option Nat
deriving DecidableEq, Repr

/-- A tool input schema: the type tag, the declared properties in order,
and the required-field list when one is declared. -/
structure InputSchema where
  type : String
  properties : List (String × PropSchema)
  required : Option (List String)
deriving DecidableEq, Repr

/-- A ToolDescriptor: types.Tool(name=..., description=...,
inputSchema=...). -/
structure Tool where
  name : String
  description : String
  inputSchema : InputSchema
deriving DecidableEq, Repr

/-- The list_tools handler body: the fixed six-entry ToolDescriptor
catalog, transcribed from server.py (property descriptions are the
concatenations of the adjacent string literals there). -/
def list_tools : List Tool :=
  [Tool.mk RememberizerTools.ACCOUNT_INFORMATION
    "Get information about your Rememberizer.ai personal/team knowledge repository account. This includes account holder name and email address."
    (InputSchema.mk "object" [] none),
  Tool.mk RememberizerTools.SEARCH
    "Send a block of text and retrieve cosine similar matches from your connected Rememberizer personal/team internal knowledge and memory repository."
    (InputSchema.mk "object"
      [("match_this", PropSchema.mk "string"
        "Up to a 400-word sentence for which you wish to find semantically similar chunks of knowledge."
        none none none),
      ("n_results", PropSchema.mk "integer"
        "Number of semantically similar chunks of text to return. Use \x27n_results=3\x27 for up to 5, and \x27n_results=10\x27 for more information. If you do not receive enough information, consider trying again with a larger \x27n_results\x27 value."
        none none none),
      ("from_datetime_ISO8601", PropSchema.mk "string"
        "Start date in ISO 8601 format with timezone (e.g., 2023-01-01T00:00:00Z). Use this to filter results from a specific date."
        none none none),
      ("to_datetime_ISO8601", PropSchema.mk "string"
        "End date in ISO 8601 format with timezone (e.g., 2024-01-01T00:00:00Z). Use this to filter results until a specific date."
        none none none)]
      (some ["match_this"])),
  Tool.mk RememberizerTools.AGENTIC_SEARCH
    "Search for documents in Rememberizer in its personal/team internal knowledge and memory repository using a simple query that returns the results of an agentic search. The search may include sources such as Slack discussions, Gmail, Dropbox documents, Google Drive documents, and uploaded files. Consider using the tool list_internal_knowledge_systems to find out which are available. Use the tool list_internal_knowledge_systems to find out which sources are available. \n\nYou can specify a from_datetime_ISO8601 and a to_datetime_ISO8601, and you should look at the context of your request to make sure you put reasonable parameters around this by, for example, converting a reference to recently to a start date two weeks before today, or converting yesterday to a timeframe during the last day. But do be aware of the effect of time zone differences in the source data and for the requestor."
    (InputSchema.mk "object"
      [("query", PropSchema.mk "string"
        "Up to a 400-word sentence for which you wish to find semantically similar chunks of knowledge."
        none none none),
      ("user_context", PropSchema.mk "string"
        "The additional context for the query. You might need to summarize the conversation up to this point for better context-awared results."
        none none none),
      ("n_results", PropSchema.mk "integer"
        "Number of semantically similar chunks of text to return. Use \x27n_results=3\x27 for up to 5, and \x27n_results=10\x27 for more information. If you do not receive enough information, consider trying again with a larger \x27n_results\x27 value."
        none none none),
      ("from_datetime_ISO8601", PropSchema.mk "string"
        "Start date in ISO 8601 format with timezone (e.g., 2023-01-01T00:00:00Z). Use this to filter results from a specific date."
        none none none),
      ("to_datetime_ISO8601", PropSchema.mk "string"
        "End date in ISO 8601 format with timezone (e.g., 2024-01-01T00:00:00Z). Use this to filter results until a specific date."
        none none none)]
      (some ["query"])),
  Tool.mk RememberizerTools.LIST_INTEGRATIONS
    "List the sources of personal/team internal knowledge. These may include Slack discussions, Gmail, Dropbox documents, Google Drive documents, and uploaded files."
    (InputSchema.mk "object" [] none),
  Tool.mk RememberizerTools.LIST_DOCUMENTS
    "Retrieves a paginated list of all documents in your personal/team knowledge system. Sources could include Slack discussions, Gmail, Dropbox documents, Google Drive documents, and uploaded files. Consider using the tool list_internal_knowledge_systems to find out which are available. \n\nUse this tool to browse through available documents and their metadata.\n\nExamples:\n- List first 100 documents: \x7b\"page\": 1, \"page_size\": 100\x7d\n- Get next page: \x7b\"page\": 2, \"page_size\": 100\x7d\n- Get maximum allowed documents: \x7b\"page\": 1, \"page_size\": 1000\x7d\n"
    (InputSchema.mk "object"
      [("page", PropSchema.mk "integer"
        "Page number for pagination (starts at 1)"
        (some 1) none (some 1)),
      ("page_size", PropSchema.mk "integer"
        "Number of documents per page (1-1000)"
        (some 1) (some 1000) (some 100))]
      none),
  Tool.mk RememberizerTools.MEMORIZE
    "Save a piece of text information in your Rememberizer.ai knowledge system so that it may be recalled in future through tools retrieve_semantically_similar_internal_knowledge or smart_search_internal_knowledge."
    (InputSchema.mk "object"
      [("name", PropSchema.mk "string"
        "Name of the information. This is used to identify the information in the future."
        none none none),
      ("content", PropSchema.mk "string"
        "The information you wish to memorize."
        none none none)]
      none)]

/-- The call_tool handler body: dispatch on the tool name (exact,
case-sensitive string match), read required arguments by subscript
(KeyError when absent), read optional arguments with .get and its
default, issue one API Client call, and wrap str(data) as a single
TextContent.  An unmatched name raises ValueError. -/
def call_tool (name : String) (arguments : List (String × Json))
    (remote : Request → Json) :
    List Request × Except Err (List TextContent) :=
  match name with
  | "retrieve_semantically_similar_internal_knowledge" =>
      match dictGet arguments "match_this" with
      | none => ([], Except.error (Err.keyError "match_this"))
      | some match_this =>
          let n_results := dictGetD arguments "n_results" (Json.num 5)
          let from_datetime := dictGetD arguments "from_datetime_ISO8601" Json.null
          let to_datetime := dictGetD arguments "to_datetime_ISO8601" Json.null
          let params := [("q", match_this), ("n", n_results),
            ("from", from_datetime), ("to", to_datetime)]
          let req := Request.get SEARCH_PATH (some params)
          ([req], Except.ok [TextContent.mk "text" (pyStr (remote req))])
  | "smart_search_internal_knowledge" =>
      match dictGet arguments "query" with
      | none => ([], Except.error (Err.keyError "query"))
      | some query =>
          let n_results := dictGetD arguments "n_results" (Json.num 5)
          let user_context := dictGetD arguments "user_context" Json.null
          let from_datetime := dictGetD arguments "from_datetime_ISO8601" Json.null
          let to_datetime := dictGetD arguments "to_datetime_ISO8601" Json.null
          let params := [("query", query), ("n_chunks", n_results),
            ("user_context", user_context), ("from", from_datetime),
            ("to", to_datetime)]
          let req := Request.post AGENTIC_SEARCH_PATH params
          ([req], Except.ok [TextContent.mk "text" (pyStr (remote req))])
  | "list_internal_knowledge_systems" =>
      let req := Request.get LIST_INTEGRATIONS_PATH none
      match remote req with
      | Json.obj fields =>
          ([req], Except.ok
            [TextContent.mk "text" (pyStr (dictGetD fields "data" (Json.arr [])))])
      | _ => ([req], Except.error Err.attributeError)
  | "rememberizer_account_information" =>
      let req := Request.get ACCOUNT_INFORMATION_PATH none
      ([req], Except.ok [TextContent.mk "text" (pyStr (remote req))])
  | "list_personal_team_knowledge_documents" =>
      let page := dictGetD arguments "page" (Json.num 1)
      let page_size := dictGetD arguments "page_size" (Json.num 100)
      let params := [("page", page), ("page_size", page_size)]
      let req := Request.get LIST_DOCUMENTS_PATH (some params)
      ([req], Except.ok [TextContent.mk "text" (pyStr (remote req))])
  | "remember_this" =>
      match dictGet arguments "name" with
      | none => ([], Except.error (Err.keyError "name"))
      | some nameArg =>
          match dictGet arguments "content" with
          | none => ([], Except.error (Err.keyError "content"))
          | some content =>
              let params := [("name", nameArg), ("content", content)]
              let req := Request.post MEMORIZE_PATH params
              ([req], Except.ok [TextContent.mk "text" (pyStr (remote req))])
  | _ => ([], Except.error (Err.valueError ("Unknown tool: " ++ name)))

/-- The required arguments of each catalog tool, per the spec tool table
(the arguments call_tool reads by subscript). -/
def requiredArgs : String → List String
  | "retrieve_semantically_similar_internal_knowledge" => ["match_this"]
  | "smart_search_internal_knowledge" => ["query"]
  | "remember_this" => ["name", "content"]
  | _ => []

/-- The argument keys the call_tool arm for a given tool name reads. -/
def relevantKeys : String → List String
  | "retrieve_semantically_similar_internal_knowledge" =>
      ["match_this", "n_results", "from_datetime_ISO8601", "to_datetime_ISO8601"]
  | "smart_search_internal_knowledge" =>
      ["query", "n_results", "user_context", "from_datetime_ISO8601",
        "to_datetime_ISO8601"]
  | "list_personal_team_knowledge_documents" => ["page", "page_size"]
  | "remember_this" => ["name", "content"]
  | _ => []

/-- The names of the advertised tool catalog, computed once. -/
lemma list_tools_names : list_tools.map Tool.name =
    [RememberizerTools.ACCOUNT_INFORMATION, RememberizerTools.SEARCH,
     RememberizerTools.AGENTIC_SEARCH, RememberizerTools.LIST_INTEGRATIONS,
     RememberizerTools.LIST_DOCUMENTS, RememberizerTools.MEMORIZE] := rfl

/-- C3: for each tool with a required argument (search: match_this,
agentic_search: query, memorize: name and content), call_tool with that
argument absent fails with the KeyError naming the missing field — the
InvalidArgument of the spec — and the request log is empty: no API Client
call is issued. -/
theorem c3_missing_required_argument :
    (∀ arguments remote, dictGet arguments "match_this" = none →
      call_tool RememberizerTools.SEARCH arguments remote =
        ([], Except.error (Err.keyError "match_this")))
    ∧ (∀ arguments remote, dictGet arguments "query" = none →
      call_tool RememberizerTools.AGENTIC_SEARCH arguments remote =
        ([], Except.error (Err.keyError "query")))
    ∧ (∀ arguments remote, dictGet arguments "name" = none →
      call_tool RememberizerTools.MEMORIZE arguments remote =
        ([], Except.error (Err.keyError "name")))
    ∧ (∀ arguments remote v, dictGet arguments "name" = some v →
      dictGet arguments "content" = none →
      call_tool RememberizerTools.MEMORIZE arguments remote =
        ([], Except.error (Err.keyError "content"))) := by
  refine ⟨?_, ?_, ?_, ?_⟩
  · intro arguments remote h
    simp [call_tool, RememberizerTools.SEARCH, h]
  · intro arguments remote h
    simp [call_tool, RememberizerTools.AGENTIC_SEARCH, h]
  · intro arguments remote h
    simp [call_tool, RememberizerTools.MEMORIZE, h]
  · intro arguments remote v hn hc
    simp [call_tool, RememberizerTools.MEMORIZE, hn, hc]

/-- Witness for C3 at concrete inputs: empty argument dicts (and, for the
content case, a dict holding only name). -/
theorem c3_missing_required_argument_witness :
    call_tool RememberizerTools.SEARCH [] (fun _ => Json.null) =
      ([], Except.error (Err.keyError "match_this"))
    ∧ call_tool RememberizerTools.AGENTIC_SEARCH [] (fun _ => Json.null) =
      ([], Except.error (Err.keyError "query"))
    ∧ call_tool RememberizerTools.MEMORIZE [] (fun _ => Json.null) =
      ([], Except.error (Err.keyError "name"))
    ∧ call_tool RememberizerTools.MEMORIZE [("name", Json.str "x")]
        (fun _ => Json.null) =
      ([], Except.error (Err.keyError "content")) :=
  ⟨c3_missing_required_argument.1 [] (fun _ => Json.null) rfl,
   c3_missing_required_argument.2.1 [] (fun _ => Json.null) rfl,
   c3_missing_required_argument.2.2.1 [] (fun _ => Json.null) rfl,
   c3_missing_required_argument.2.2.2 [("name", Json.str "x")]
     (fun _ => Json.null) (Json.str "x") rfl rfl⟩

/-- C4: call_tool with any name outside the six advertised catalog names
fails at once with the ValueError for an unknown tool, and read_resource
with any uri whose host segment is neither document nor slack fails at
once with the ValueError for an unknown resource; in both cases the
request log is empty, so no API Client call is issued and there is no
silent fallback. -/
theorem c4_unknown_name_rejected :
    (∀ name arguments remote, name ∉ list_tools.map Tool.name →
      call_tool name arguments remote =
        ([], Except.error (Err.valueError ("Unknown tool: " ++ name))))
    ∧ (∀ uri remote, uri.host ≠ "document" → uri.host ≠ "slack" →
      read_resource uri remote =
        ([], Except.error (Err.valueError ("Unknown resource: " ++ uriText uri)))) := by
  constructor
  · intro name arguments remote h
    rw [list_tools_names] at h
    simp only [List.mem_cons, List.not_mem_nil, or_false, not_or] at h
    obtain ⟨h1, h2, h3, h4, h5, h6⟩ := h
    unfold call_tool
    split
    · exact absurd rfl h2
    · exact absurd rfl h3
    · exact absurd rfl h4
    · exact absurd rfl h1
    · exact absurd rfl h5
    · exact absurd rfl h6
    · rfl
  · intro uri remote h1 h2
    simp [read_resource, h1, h2]

/-- Witness for C4 at concrete inputs: the tool name nonexistent_tool and
the uri weird://1 (scheme weird, host 1, empty path). -/
theorem c4_unknown_name_rejected_witness :
    call_tool "nonexistent_tool" [] (fun _ => Json.null) =
      ([], Except.error (Err.valueError ("Unknown tool: " ++ "nonexistent_tool")))
    ∧ read_resource (Uri.mk "weird" "1" "") (fun _ => Json.null) =
      ([], Except.error (Err.valueError
        ("Unknown resource: " ++ uriText (Uri.mk "weird" "1" "")))) :=
  ⟨c4_unknown_name_rejected.1 "nonexistent_tool" [] (fun _ => Json.null)
      (by decide),
   c4_unknown_name_rejected.2 (Uri.mk "weird" "1" "") (fun _ => Json.null)
      (by decide) (by decide)⟩

/-- C2: read_resource on a uri with host document and path segment 42
issues exactly one GET, to the document-retrieval template with id 42, and
returns the remote JSON pretty-printed; host slack with path segment 7
issues one GET to the slack-retrieval template with id 7; and in general
the id substituted into the template is the uri path with its leading
separators stripped. -/
theorem c2_read_resource_routes :
    (∀ scheme remote,
      read_resource (Uri.mk scheme "document" "/42") remote =
        ([Request.get (formatId RETRIEVE_DOCUMENT_PATH "42") none],
         Except.ok (jsonDumps
           (remote (Request.get (formatId RETRIEVE_DOCUMENT_PATH "42") none)))))
    ∧ (∀ scheme remote,
      read_resource (Uri.mk scheme "slack" "/7") remote =
        ([Request.get (formatId RETRIEVE_SLACK_PATH "7") none],
         Except.ok (jsonDumps
           (remote (Request.get (formatId RETRIEVE_SLACK_PATH "7") none)))))
    ∧ (∀ scheme p remote,
      read_resource (Uri.mk scheme "document" p) remote =
        ([Request.get (formatId RETRIEVE_DOCUMENT_PATH (lstripSlash p)) none],
         Except.ok (jsonDumps (remote
           (Request.get (formatId RETRIEVE_DOCUMENT_PATH (lstripSlash p)) none))))) := by
  refine ⟨fun scheme remote => ?_, fun scheme remote => ?_, fun scheme p remote => ?_⟩
  · rfl
  · rfl
  · rfl

/-- C6: optional-argument defaulting — search invoked with only match_this
sends params q, n=5, from=None, to=None; agentic_search invoked with only
query posts a body with n_chunks=5 and None context and datetimes;
list_documents invoked with no arguments sends page=1 and page_size=100. -/
theorem c6_optional_defaults :
    (∀ v remote,
      call_tool RememberizerTools.SEARCH [("match_this", v)] remote =
        ([Request.get SEARCH_PATH (some [("q", v), ("n", Json.num 5),
            ("from", Json.null), ("to", Json.null)])],
         Except.ok [TextContent.mk "text" (pyStr (remote
           (Request.get SEARCH_PATH (some [("q", v), ("n", Json.num 5),
             ("from", Json.null), ("to", Json.null)]))))]))
    ∧ (∀ q remote,
      call_tool RememberizerTools.AGENTIC_SEARCH [("query", q)] remote =
        ([Request.post AGENTIC_SEARCH_PATH [("query", q), ("n_chunks", Json.num 5),
            ("user_context", Json.null), ("from", Json.null), ("to", Json.null)]],
         Except.ok [TextContent.mk "text" (pyStr (remote
           (Request.post AGENTIC_SEARCH_PATH [("query", q), ("n_chunks", Json.num 5),
             ("user_context", Json.null), ("from", Json.null), ("to", Json.null)])))]))
    ∧ (∀ remote,
      call_tool RememberizerTools.LIST_DOCUMENTS [] remote =
        ([Request.get LIST_DOCUMENTS_PATH (some [("page", Json.num 1),
            ("page_size", Json.num 100)])],
         Except.ok [TextContent.mk "text" (pyStr (remote
           (Request.get LIST_DOCUMENTS_PATH (some [("page", Json.num 1),
             ("page_size", Json.num 100)]))))])) := by
  refine ⟨fun v remote => ?_, fun q remote => ?_, fun remote => ?_⟩
  · rfl
  · rfl
  · rfl

/-- C7: when a search invocation omits from_datetime_ISO8601 (or
to_datetime_ISO8601), the issued GET carries a params mapping whose
serialized query string — queryParams, which omits None-valued entries —
has no entry under the corresponding key, so the absent filter is never
sent, in particular never as a literal None/null text. -/
theorem c7_omitted_datetimes_absent :
    (∀ arguments remote v,
      dictGet arguments "match_this" = some v →
      dictGet arguments "from_datetime_ISO8601" = none →
      ∃ ps, (call_tool RememberizerTools.SEARCH arguments remote).1 =
          [Request.get SEARCH_PATH (some ps)]
        ∧ "from" ∉ (queryParams ps).map Prod.fst)
    ∧ (∀ arguments remote v,
      dictGet arguments "match_this" = some v →
      dictGet arguments "to_datetime_ISO8601" = none →
      ∃ ps, (call_tool RememberizerTools.SEARCH arguments remote).1 =
          [Request.get SEARCH_PATH (some ps)]
        ∧ "to" ∉ (queryParams ps).map Prod.fst) := by
  constructor
  · intro arguments remote v hm hf
    refine ⟨[("q", v), ("n", dictGetD arguments "n_results" (Json.num 5)),
      ("from", Json.null),
      ("to", dictGetD arguments "to_datetime_ISO8601" Json.null)], ?_, ?_⟩
    · simp [call_tool, RememberizerTools.SEARCH, hm, hf, dictGetD]
    · intro hmem
      rw [List.mem_map] at hmem
      obtain ⟨p, hp, hkey⟩ := hmem
      rw [queryParams, List.mem_filter] at hp
      obtain ⟨hmem2, hnn⟩ := hp
      fin_cases hmem2 <;> simp_all [Json.isNull]
  · intro arguments remote v hm ht
    refine ⟨[("q", v), ("n", dictGetD arguments "n_results" (Json.num 5)),
      ("from", dictGetD arguments "from_datetime_ISO8601" Json.null),
      ("to", Json.null)], ?_, ?_⟩
    · simp [call_tool, RememberizerTools.SEARCH, hm, ht, dictGetD]
    · intro hmem
      rw [List.mem_map] at hmem
      obtain ⟨p, hp, hkey⟩ := hmem
      rw [queryParams, List.mem_filter] at hp
      obtain ⟨hmem2, hnn⟩ := hp
      fin_cases hmem2 <;> simp_all [Json.isNull]

/-- Witness for C7 at a concrete input: arguments holding only
match_this. -/
theorem c7_omitted_datetimes_absent_witness :
    (∃ ps, (call_tool RememberizerTools.SEARCH [("match_this", Json.str "x")]
        (fun _ => Json.null)).1 = [Request.get SEARCH_PATH (some ps)]
      ∧ "from" ∉ (queryParams ps).map Prod.fst)
    ∧ (∃ ps, (call_tool RememberizerTools.SEARCH [("match_this", Json.str "x")]
        (fun _ => Json.null)).1 = [Request.get SEARCH_PATH (some ps)]
      ∧ "to" ∉ (queryParams ps).map Prod.fst) :=
  ⟨c7_omitted_datetimes_absent.1 [("match_this", Json.str "x")]
      (fun _ => Json.null) (Json.str "x") rfl rfl,
   c7_omitted_datetimes_absent.2 [("match_this", Json.str "x")]
      (fun _ => Json.null) (Json.str "x") rfl rfl⟩

/-- C8: the integrations tool renders only the data field of a decoded
JSON object response — the empty list when the field is absent — unlike
the other tools, which render the whole response (the final conjunct
separates the two renderings on a concrete response). -/
theorem c8_integrations_renders_data_field :
    (∀ fields arguments remote,
      remote (Request.get LIST_INTEGRATIONS_PATH none) = Json.obj fields →
      (call_tool RememberizerTools.LIST_INTEGRATIONS arguments remote).2 =
        Except.ok [TextContent.mk "text"
          (pyStr (dictGetD fields "data" (Json.arr [])))])
    ∧ (∀ fields arguments remote,
      remote (Request.get LIST_INTEGRATIONS_PATH none) = Json.obj fields →
      dictGet fields "data" = none →
      (call_tool RememberizerTools.LIST_INTEGRATIONS arguments remote).2 =
        Except.ok [TextContent.mk "text" (pyStr (Json.arr []))])
    ∧ (call_tool RememberizerTools.LIST_INTEGRATIONS []
        (fun _ => Json.obj [("x", Json.null)])).2 ≠
      Except.ok [TextContent.mk "text" (pyStr (Json.obj [("x", Json.null)]))] := by
  refine ⟨?_, ?_, ?_⟩
  · intro fields arguments remote hresp
    simp [call_tool, RememberizerTools.LIST_INTEGRATIONS, hresp]
  · intro fields arguments remote hresp hdata
    simp [call_tool, RememberizerTools.LIST_INTEGRATIONS, hresp, dictGetD, hdata]
  · intro h
    simp [call_tool, RememberizerTools.LIST_INTEGRATIONS, dictGetD, dictGet,
      pyStr, pyRepr, pyReprFields, pyReprList] at h

/-- Witness for C8 at a concrete input: an object response carrying a data
field, and one without it. -/
theorem c8_integrations_renders_data_field_witness :
    (call_tool RememberizerTools.LIST_INTEGRATIONS []
        (fun _ => Json.obj [("data", Json.arr [Json.str "slack"])])).2 =
      Except.ok [TextContent.mk "text"
        (pyStr (dictGetD [("data", Json.arr [Json.str "slack"])] "data" (Json.arr [])))]
    ∧ (call_tool RememberizerTools.LIST_INTEGRATIONS []
        (fun _ => Json.obj [("other", Json.num 1)])).2 =
      Except.ok [TextContent.mk "text" (pyStr (Json.arr []))] :=
  ⟨c8_integrations_renders_data_field.1 [("data", Json.arr [Json.str "slack"])] []
      (fun _ => Json.obj [("data", Json.arr [Json.str "slack"])]) rfl,
   c8_integrations_renders_data_field.2.1 [("other", Json.num 1)] []
      (fun _ => Json.obj [("other", Json.num 1)]) rfl rfl⟩

/-- C9: the memorize ToolDescriptor advertised by list_tools declares no
required list in its input schema, yet call_tool for that tool fails
whenever name or content is absent, so the advertised schema
under-declares the dispatch precondition. -/
theorem c9_memorize_schema_underdeclares :
    ((list_tools.filter (fun t => t.name = RememberizerTools.MEMORIZE)).map
        (fun t => t.inputSchema.required) = [none])
    ∧ (∀ arguments remote, dictGet arguments "name" = none →
        call_tool RememberizerTools.MEMORIZE arguments remote =
          ([], Except.error (Err.keyError "name")))
    ∧ (∀ arguments remote v, dictGet arguments "name" = some v →
        dictGet arguments "content" = none →
        call_tool RememberizerTools.MEMORIZE arguments remote =
          ([], Except.error (Err.keyError "content"))) := by
  refine ⟨rfl, ?_, ?_⟩
  · intro arguments remote h
    simp [call_tool, RememberizerTools.MEMORIZE, h]
  · intro arguments remote v hn hc
    simp [call_tool, RememberizerTools.MEMORIZE, hn, hc]

/-- Witness for C9 at concrete inputs: an empty argument dict and one
holding only name. -/
theorem c9_memorize_schema_underdeclares_witness :
    call_tool RememberizerTools.MEMORIZE [] (fun _ => Json.null) =
      ([], Except.error (Err.keyError "name"))
    ∧ call_tool RememberizerTools.MEMORIZE [("name", Json.str "note")]
        (fun _ => Json.null) =
      ([], Except.error (Err.keyError "content")) :=
  ⟨c9_memorize_schema_underdeclares.2.1 [] (fun _ => Json.null) rfl,
   c9_memorize_schema_underdeclares.2.2 [("name", Json.str "note")]
      (fun _ => Json.null) (Json.str "note") rfl rfl⟩

/-- C10: the remote request and the result of call_tool depend only on the
argument keys the arm for that tool name reads: two argument dicts that
agree on those keys — whatever extra, unrecognized keys either carries —
give identical request logs and identical outcomes. -/
theorem c10_unrecognized_keys_ignored (name : String)
    (args1 args2 : List (String × Json)) (remote : Request → Json)
    (h : ∀ k ∈ relevantKeys name, dictGet args1 k = dictGet args2 k) :
    call_tool name args1 remote = call_tool name args2 remote := by
  unfold call_tool
  split
  · have h1 := h "match_this" (by decide)
    have h2 := h "n_results" (by decide)
    have h3 := h "from_datetime_ISO8601" (by decide)
    have h4 := h "to_datetime_ISO8601" (by decide)
    simp only [dictGetD, h1, h2, h3, h4]
  · have h1 := h "query" (by decide)
    have h2 := h "n_results" (by decide)
    have h3 := h "user_context" (by decide)
    have h4 := h "from_datetime_ISO8601" (by decide)
    have h5 := h "to_datetime_ISO8601" (by decide)
    simp only [dictGetD, h1, h2, h3, h4, h5]
  · rfl
  · rfl
  · have h1 := h "page" (by decide)
    have h2 := h "page_size" (by decide)
    simp only [dictGetD, h1, h2]
  · have h1 := h "name" (by decide)
    have h2 := h "content" (by decide)
    simp only [dictGetD, h1, h2]
  · rfl

/-- Witness for C10 at a concrete input: a search call with an extra
unrecognized key gives the same run as one without it. -/
theorem c10_unrecognized_keys_ignored_witness :
    call_tool RememberizerTools.SEARCH
        [("match_this", Json.str "x"), ("unrecognized", Json.str "junk")]
        (fun _ => Json.null) =
      call_tool RememberizerTools.SEARCH [("match_this", Json.str "x")]
        (fun _ => Json.null) :=
  c10_unrecognized_keys_ignored RememberizerTools.SEARCH
    [("match_this", Json.str "x"), ("unrecognized", Json.str "junk")]
    [("match_this", Json.str "x")] (fun _ => Json.null)
    (by intro k hk; fin_cases hk <;> rfl)

/-- The id field of a document object rendered as the uri id (statement
helper). -/
def docIdOf (document : Json) : String :=
  match document.get "id" with
  | some (Json.str s) => s
  | _ => ""

/-- The name field of a document object (statement helper). -/
def docNameOf (document : Json) : String :=
  match document.get "name" with
  | some (Json.str s) => s
  | _ => ""

/-- On well-formed document objects, parseResources succeeds elementwise
and in order. -/
lemma parseResources_eq (docs : List Json)
    (h : ∀ d ∈ docs, ∃ id nm, d.get "id" = some (Json.str id)
      ∧ d.get "name" = some (Json.str nm)) :
    parseResources docs = some (docs.map fun d =>
      Resource.mk ("document://" ++ docIdOf d) (docNameOf d) "text/json") := by
  induction docs with
  | nil => rfl
  | cons d ds ih =>
      obtain ⟨id, nm, hid, hnm⟩ := h d (by simp)
      have hd : parseResource d =
          some (Resource.mk ("document://" ++ docIdOf d) (docNameOf d) "text/json") := by
        simp [parseResource, get_document_uri, hid, hnm, docIdOf, docNameOf]
      have hds := ih (fun x hx => h x (by simp [hx]))
      simp only [parseResources, hd, hds, List.map]

/-- C5: for a remote JSON response whose results field is a list of
well-formed document objects, list_resources issues one GET of the
documents-list path and returns exactly one ResourceDescriptor per
element, in the same order, each with uri document://id and media type
text/json. -/
theorem c5_list_resources_order (remote : Request → Json) (docs : List Json)
    (hres : (remote (Request.get LIST_DOCUMENTS_PATH none)).get "results" =
      some (Json.arr docs))
    (hdocs : ∀ d ∈ docs, ∃ id nm, d.get "id" = some (Json.str id)
      ∧ d.get "name" = some (Json.str nm)) :
    list_resources remote =
      ([Request.get LIST_DOCUMENTS_PATH none],
       Except.ok (docs.map fun d =>
         Resource.mk ("document://" ++ docIdOf d) (docNameOf d) "text/json")) := by
  simp only [list_resources, hres, parseResources_eq docs hdocs]

/-- Witness for C5 at a concrete input: a results array of two document
objects. -/
theorem c5_list_resources_order_witness :
    list_resources (fun _ => Json.obj [("results", Json.arr
      [Json.obj [("id", Json.str "1"), ("name", Json.str "a")],
       Json.obj [("id", Json.str "2"), ("name", Json.str "b")]])]) =
      ([Request.get LIST_DOCUMENTS_PATH none],
       Except.ok [Resource.mk "document://1" "a" "text/json",
                  Resource.mk "document://2" "b" "text/json"]) := by
  have h := c5_list_resources_order
    (fun _ => Json.obj [("results", Json.arr
      [Json.obj [("id", Json.str "1"), ("name", Json.str "a")],
       Json.obj [("id", Json.str "2"), ("name", Json.str "b")]])])
    [Json.obj [("id", Json.str "1"), ("name", Json.str "a")],
     Json.obj [("id", Json.str "2"), ("name", Json.str "b")]]
    rfl
    (by
      intro d hd
      simp only [List.mem_cons, List.not_mem_nil, or_false] at hd
      rcases hd with rfl | rfl
      · exact ⟨"1", "a", rfl, rfl⟩
      · exact ⟨"2", "b", rfl, rfl⟩)
  exact h

/-- C1: every one of the six tool names advertised by list_tools is
accepted by the case-sensitive call_tool dispatch: with every required
argument present in the arguments dict and the remote service decoding to
JSON (an object for the integrations listing), call_tool returns a single
text payload derived from the remote response and raises no exception. -/
theorem c1_advertised_names_accepted (name : String)
    (arguments : List (String × Json)) (remote : Request → Json)
    (hname : name ∈ list_tools.map Tool.name)
    (hreq : ∀ f ∈ requiredArgs name, (dictGet arguments f).isSome = true)
    (hobj : (remote (Request.get LIST_INTEGRATIONS_PATH none)).isObj = true) :
    ∃ s, (call_tool name arguments remote).2 =
      Except.ok [TextContent.mk "text" s] := by
  rw [list_tools_names] at hname
  simp only [List.mem_cons, List.not_mem_nil, or_false] at hname
  rcases hname with rfl | rfl | rfl | rfl | rfl | rfl
  · exact ⟨_, rfl⟩
  · have hm := hreq "match_this" (by decide)
    obtain ⟨v, hv⟩ := Option.isSome_iff_exists.mp hm
    simp only [RememberizerTools.SEARCH, call_tool]
    rw [hv]
    exact ⟨_, rfl⟩
  · have hq := hreq "query" (by decide)
    obtain ⟨v, hv⟩ := Option.isSome_iff_exists.mp hq
    simp only [RememberizerTools.AGENTIC_SEARCH, call_tool]
    rw [hv]
    exact ⟨_, rfl⟩
  · cases hrem : remote (Request.get LIST_INTEGRATIONS_PATH none) with
    | obj fields =>
        simp only [RememberizerTools.LIST_INTEGRATIONS, call_tool]
        rw [hrem]
        exact ⟨_, rfl⟩
    | null => rw [hrem] at hobj; simp [Json.isObj] at hobj
    | bool b => rw [hrem] at hobj; simp [Json.isObj] at hobj
    | num n => rw [hrem] at hobj; simp [Json.isObj] at hobj
    | str s => rw [hrem] at hobj; simp [Json.isObj] at hobj
    | arr xs => rw [hrem] at hobj; simp [Json.isObj] at hobj
  · exact ⟨_, rfl⟩
  · have hn := hreq "name" (by decide)
    have hc := hreq "content" (by decide)
    obtain ⟨vn, hvn⟩ := Option.isSome_iff_exists.mp hn
    obtain ⟨vc, hvc⟩ := Option.isSome_iff_exists.mp hc
    simp only [RememberizerTools.MEMORIZE, call_tool]
    rw [hvn, hvc]
    exact ⟨_, rfl⟩

/-- Witness for C1 at a concrete input: the advertised search name with
its required argument present and a null-returning remote service. -/
theorem c1_advertised_names_accepted_witness :
    ∃ s, (call_tool RememberizerTools.SEARCH [("match_this", Json.str "x")]
      (fun _ => Json.obj [])).2 = Except.ok [TextContent.mk "text" s] :=
  c1_advertised_names_accepted RememberizerTools.SEARCH
    [("match_this", Json.str "x")] (fun _ => Json.obj [])
    (by decide) (by decide) rfl
